import Mathlib

/-!
Verification of the Google Apps Script tool wrappers.

The repository provides two callable tool wrappers around the Google Apps
Script REST API:

* `script-scripts-run.js` exposes `executeFunction`, which builds a POST
  request to `/v1/scripts/<scriptId>:run` with a JSON body, performs one
  fetch, and normalizes failures into an error envelope.
* `script-projects-versions-list.js` exposes `executeFunction`, which builds
  a GET request to `/v1/projects/<scriptId>/versions`, performs one fetch,
  and normalizes failures the same way.

This file gives a shallow embedding of both wrappers.  JavaScript values
flowing through the wrappers are modelled by `JsValue`; the external
collaborators (OAuth helper, the JS engine JSON parser, the network) are
modelled as environment data supplied to each invocation, since the
repository treats them as opaque.  Machine behaviour that the wrappers rely
on (template-string interpolation of `undefined`, truthiness tests,
`JSON.stringify`, destructuring defaults) is embedded explicitly.
-/

namespace GAS

/-- A JavaScript JSON value: the data flowing through the wrappers. -/
inductive JsValue where
  | null
  | bool (b : Bool)
  | num (n : Int)
  | str (s : String)
  | arr (elems : List JsValue)
  | obj (fields : List (String × JsValue))
deriving Repr

/-- JavaScript truthiness of a value, as used by `if (x)` and `||`. -/
def JsValue.truthy : JsValue → Bool
  | .null => false
  | .bool b => b
  | .num n => n != 0
  | .str s => !s.isEmpty
  | .arr _ => true
  | .obj _ => true

/-- First binding of a key in an object field list. -/
def lookupField : List (String × JsValue) → String → Option JsValue
  | [], _ => none
  | (k, v) :: fs, key => if k == key then some v else lookupField fs key

/-- JavaScript property access `v.key`: defined on objects, `undefined`
(modelled as `none`) on every other value. -/
def JsValue.getField : JsValue → String → Option JsValue
  | .obj fs, key => lookupField fs key
  | _, _ => none

/-- Escape one character the way `JSON.stringify` escapes string contents. -/
def escapeChar (c : Char) : String :=
  if c = '"' then "\\\""
  else if c = '\\' then "\\\\"
  else if c = '\n' then "\\n"
  else if c = '\t' then "\\t"
  else if c = '\r' then "\\r"
  else String.singleton c

/-- Escape a string body the way `JSON.stringify` does. -/
def escapeString (s : String) : String :=
  String.join (s.data.map escapeChar)

mutual

/-- `JSON.stringify` on a JSON value, as used by the run wrapper to
serialize the remote error body into an `Error` message. -/
def JsValue.stringify : JsValue → String
  | .null => "null"
  | .bool true => "true"
  | .bool false => "false"
  | .num n => toString n
  | .str s => "\"" ++ escapeString s ++ "\""
  | .arr xs => "[" ++ String.intercalate "," (stringifyList xs) ++ "]"
  | .obj fs => "\x7b" ++ String.intercalate "," (stringifyFields fs) ++ "\x7d"

def stringifyList : List JsValue → List String
  | [] => []
  | x :: xs => JsValue.stringify x :: stringifyList xs

def stringifyFields : List (String × JsValue) → List String
  | [] => []
  | (k, v) :: fs =>
      ("\"" ++ escapeString k ++ "\":" ++ JsValue.stringify v) :: stringifyFields fs

end

mutual

/-- JavaScript string coercion `String(v)`, as performed by template
literals on interpolated values. -/
def jsToString : JsValue → String
  | .null => "null"
  | .bool true => "true"
  | .bool false => "false"
  | .num n => toString n
  | .str s => s
  | .arr xs => String.intercalate "," (jsToStringList xs)
  | .obj _ => "[object Object]"

def jsToStringList : List JsValue → List String
  | [] => []
  | x :: xs => jsToString x :: jsToStringList xs

end

/-- A JavaScript error: what a `catch (error)` clause receives. -/
structure JsError where
  name : String
  message : String
  stack : String
deriving Repr

/-- The error produced by `new Error(msg)`. -/
def mkError (msg : String) : JsError :=
  { name := "Error", message := msg, stack := "Error: " ++ msg }

/-- An HTTP response as the wrappers observe it: the status, the raw body
text, the result of the engine JSON parser on that text (`none` when the
body is not valid JSON), and the message of the SyntaxError the parser
throws in that case.  The parser and its message belong to the JS engine,
so they are environment data. -/
structure HttpResponse where
  status : Nat
  body : String
  bodyJson : Option JsValue
  parseError : JsError
deriving Repr

/-- `response.ok`: status in the inclusive-exclusive range 200 to 300. -/
def respOk (r : HttpResponse) : Bool :=
  200 ≤ r.status && r.status < 300

/-- Outcome of one `fetch` call: a transport fault (the promise rejects)
or a response. -/
inductive FetchOutcome where
  | fault (e : JsError)
  | response (r : HttpResponse)

/-- The HTTP request a wrapper hands to `fetch`. -/
structure HttpRequest where
  method : String
  path : String
  query : List (String × String)
  headers : List (String × String)
  body : Option JsValue
deriving Repr

/-- Assignment `headers[k] = v` on a JS headers object: overwrite the
binding when present, append it otherwise. -/
def setHeader (hs : List (String × String)) (k v : String) : List (String × String) :=
  if hs.any (fun p => p.1 == k) then
    hs.map (fun p => if p.1 == k then (k, v) else p)
  else hs ++ [(k, v)]

/-- What one invocation of a wrapper did: the request actually handed to
`fetch` (none when the auth step failed before the fetch), and the value
returned to the caller. -/
structure CallTrace where
  request : Option HttpRequest
  result : JsValue

/-- The uniform error envelope both wrappers return from their catch
blocks. -/
def errorEnvelope (e : JsError) (details : JsValue) : JsValue :=
  .obj [("error", .bool true),
        ("message", .str e.message),
        ("details", details),
        ("rawError", .obj [("name", .str e.name), ("stack", .str e.stack)])]

/-- `error.name || "Unknown"`. -/
def errorTypeOf (e : JsError) : String :=
  if e.name.isEmpty then "Unknown" else e.name

/-- Template-literal interpolation of a possibly-undefined variable: a
missing argument prints as the literal text undefined. -/
def interp : Option String → String
  | some s => s
  | none => "undefined"

/-- Conditional append used for `if (x) params.append(k, x)`: the value is
added only when it is defined and truthy (for strings, non-empty). -/
def appendIfTruthy (k : String) (v : Option String) : List (String × String) :=
  match v with
  | some s => if s.isEmpty then [] else [(k, s)]
  | none => []

namespace ScriptRun

/-- Arguments of the run tool, from the destructuring pattern on line 21 of
script-scripts-run.js.  A `none` field models an omitted (undefined)
argument; destructuring defaults are applied where the wrapper applies
them. -/
structure Args where
  scriptId : Option String := none
  functionName : Option String := none
  parameters : Option (List JsValue) := none
  devMode : Option Bool := none
  fields : Option String := none
  alt : Option String := none
  key : Option String := none
  access_token : Option String := none
  oauth_token : Option String := none
  quotaUser : Option String := none
  prettyPrint : Option Bool := none

/-- Outcome of the opaque collaborator `getAuthHeaders()`: a headers
mapping, or a rejection caught by the wrapper. -/
inductive AuthOutcome where
  | ok (headers : List (String × String))
  | fail (e : JsError)

/-- The environment of one invocation: the auth collaborator outcome, the
fetch outcome, and the clock reading used for the error timestamp. -/
structure Env where
  auth : AuthOutcome
  fetch : FetchOutcome
  now : String

/-- The query string built on lines 26 to 40: `fields`, `alt`,
`prettyPrint` and `quotaUser` only; the appends for `key`, `access_token`
and `oauth_token` are commented out in the source. -/
def queryParams (a : Args) : List (String × String) :=
  appendIfTruthy "fields" a.fields ++
  appendIfTruthy "alt" (some (a.alt.getD "json")) ++
  [("prettyPrint", toString (a.prettyPrint.getD true))] ++
  appendIfTruthy "quotaUser" a.quotaUser

/-- The request body of lines 43 to 47.  `JSON.stringify` drops a key
whose value is undefined, so the function key is absent from the wire body
when `functionName` was not supplied. -/
def requestBody (a : Args) : JsValue :=
  .obj ((match a.functionName with
         | some f => [("function", JsValue.str f)]
         | none => []) ++
        [("parameters", .arr (a.parameters.getD [])),
         ("devMode", .bool (a.devMode.getD true))])

/-- The request the wrapper constructs before the try block: a POST to
`/v1/scripts/<scriptId>:run` with the query string and JSON body above.
Headers are attached inside the try block once auth succeeds. -/
def buildRequest (a : Args) : HttpRequest :=
  { method := "POST"
    path := "/v1/scripts/" ++ interp a.scriptId ++ ":run"
    query := queryParams a
    headers := []
    body := some (requestBody a) }

/-- The `errorDetails` object of lines 94 to 100.  The scriptId property is
undefined when the argument was missing; an undefined property is modelled
by omitting the key. -/
def errorDetails (a : Args) (env : Env) (e : JsError) : JsValue :=
  .obj ([("message", .str e.message), ("stack", .str e.stack)] ++
        (match a.scriptId with
         | some sid => [("scriptId", JsValue.str sid)]
         | none => []) ++
        [("timestamp", .str env.now),
         ("errorType", .str (errorTypeOf e))])

/-- The value returned from the catch block: the normalized envelope. -/
def failValue (a : Args) (env : Env) (e : JsError) : JsValue :=
  errorEnvelope e (errorDetails a env e)

/-- The run wrapper, lines 21 to 117 of script-scripts-run.js.  The URL and
body are built unconditionally; auth failure, transport fault, non-2xx
status and JSON parse failure all land in the catch block and return the
envelope; a 2xx response with a JSON body is returned as decoded. -/
def executeFunction (a : Args) (env : Env) : CallTrace :=
  let req := buildRequest a
  match env.auth with
  | .fail e => { request := none, result := failValue a env e }
  | .ok hs =>
      let sent := { req with headers := setHeader hs "Content-Type" "application/json" }
      match env.fetch with
      | .fault e => { request := some sent, result := failValue a env e }
      | .response r =>
          if respOk r then
            match r.bodyJson with
            | some data => { request := some sent, result := data }
            | none => { request := some sent, result := failValue a env r.parseError }
          else
            match r.bodyJson with
            | some errorData =>
                { request := some sent,
                  result := failValue a env (mkError (JsValue.stringify errorData)) }
            | none => { request := some sent, result := failValue a env r.parseError }

end ScriptRun

namespace VersionsList

/-- Arguments of the versions-list tool, from the destructuring pattern on
line 19 of script-projects-versions-list.js.  The `alt` and `quotaUser`
properties of the schema are not destructured by the wrapper, so they are
not part of the model. -/
structure Args where
  scriptId : Option String := none
  pageSize : Option Int := none
  pageToken : Option String := none
  fields : Option String := none
  key : Option String := none
  access_token : Option String := none
  oauth_token : Option String := none
  prettyPrint : Option Bool := none

/-- Outcome of the opaque collaborator `getOAuthAccessToken()`. -/
inductive AuthOutcome where
  | ok (token : String)
  | fail (e : JsError)

/-- The environment of one invocation: auth outcome, fetch outcome, clock
reading for the timestamp, and the elapsed-time reading used for the
duration field of the error details. -/
structure Env where
  auth : AuthOutcome
  fetch : FetchOutcome
  now : String
  elapsed : Int

/-- The query string built on lines 31 to 36: `pageSize` always,
`pageToken`, `fields` and `key` when truthy, `alt` hardcoded to json, and
`prettyPrint` when truthy. -/
def queryParams (a : Args) : List (String × String) :=
  [("pageSize", toString (a.pageSize.getD 100))] ++
  appendIfTruthy "pageToken" a.pageToken ++
  appendIfTruthy "fields" a.fields ++
  [("alt", "json")] ++
  appendIfTruthy "key" a.key ++
  (if a.prettyPrint.getD true then [("prettyPrint", "true")] else [])

/-- The GET request of lines 30 to 57, including the Accept and bearer
Authorization headers. -/
def buildRequest (a : Args) (token : String) : HttpRequest :=
  { method := "GET"
    path := "/v1/projects/" ++ interp a.scriptId ++ "/versions"
    query := queryParams a
    headers := [("Accept", "application/json"),
                ("Authorization", "Bearer " ++ token)]
    body := none }

/-- First truthy candidate of a JS `||` chain over possibly-undefined
values. -/
def firstTruthy : List (Option JsValue) → Option JsValue
  | [] => none
  | some v :: rest => if v.truthy then some v else firstTruthy rest
  | none :: rest => firstTruthy rest

/-- The text of line 89: `errorData.error?.message || errorData.message ||
Unknown error`, coerced to a string by the template literal. -/
def apiErrorText (errorData : JsValue) : String :=
  match firstTruthy [(errorData.getField "error").bind (fun e => e.getField "message"),
                     errorData.getField "message"] with
  | some v => jsToString v
  | none => "Unknown error"

/-- The `errorDetails` object of lines 104 to 111, with the duration
reading included in the envelope. -/
def errorDetails (a : Args) (env : Env) (e : JsError) : JsValue :=
  .obj ([("message", .str e.message), ("stack", .str e.stack)] ++
        (match a.scriptId with
         | some sid => [("scriptId", JsValue.str sid)]
         | none => []) ++
        [("duration", .num env.elapsed),
         ("timestamp", .str env.now),
         ("errorType", .str (errorTypeOf e))])

/-- The value returned from the catch block: the normalized envelope. -/
def failValue (a : Args) (env : Env) (e : JsError) : JsValue :=
  errorEnvelope e (errorDetails a env e)

/-- The versions-list wrapper, lines 19 to 128.  Everything, the token
acquisition included, runs inside the try block.  On a non-2xx response the
body text is read and parsed; when it is not valid JSON the parsed error
data falls back to an object holding the raw text as its message, and the
thrown error message carries the status and the chosen message text. -/
def executeFunction (a : Args) (env : Env) : CallTrace :=
  match env.auth with
  | .fail e => { request := none, result := failValue a env e }
  | .ok token =>
      let req := buildRequest a token
      match env.fetch with
      | .fault e => { request := some req, result := failValue a env e }
      | .response r =>
          if respOk r then
            match r.bodyJson with
            | some data => { request := some req, result := data }
            | none => { request := some req, result := failValue a env r.parseError }
          else
            let errorData := match r.bodyJson with
              | some j => j
              | none => JsValue.obj [("message", .str r.body)]
            let msg := "API Error (" ++ toString r.status ++ "): " ++ apiErrorText errorData
            { request := some req, result := failValue a env (mkError msg) }

end VersionsList

/-- Shape of the normalized failure value both wrappers return: an object
with exactly the keys error (set to true), message, details and rawError,
the last holding name and stack. -/
def isErrorEnvelopeShape (v : JsValue) : Prop :=
  ∃ (msg : String) (details : JsValue) (rawName rawStack : String),
    v = .obj [("error", .bool true),
              ("message", .str msg),
              ("details", details),
              ("rawError", .obj [("name", .str rawName), ("stack", .str rawStack)])]

/-- JS truthiness of a possibly-undefined string argument: defined and
non-empty. -/
def truthyStr : Option String → Bool
  | some s => !s.isEmpty
  | none => false

/-! Concrete fixtures used by witnesses and counterexamples. -/

/-- A fault of the JS engine JSON parser, with an engine-style message. -/
def parseErrFx : JsError :=
  { name := "SyntaxError",
    message := "Unexpected token S in JSON at position 0",
    stack := "SyntaxError: Unexpected token S in JSON at position 0" }

/-- A transport fault, as fetch rejects it. -/
def faultFx : JsError :=
  { name := "TypeError", message := "fetch failed", stack := "TypeError: fetch failed" }

/-- A successful response carrying a small JSON object. -/
def resp200Fx : HttpResponse :=
  { status := 200, body := "\x7b\"done\":true\x7d",
    bodyJson := some (.obj [("done", .bool true)]), parseError := parseErrFx }

/-- A server error whose body is valid JSON in the Google error shape. -/
def resp500JsonFx : HttpResponse :=
  { status := 500, body := "\x7b\"error\":\x7b\"message\":\"boom\"\x7d\x7d",
    bodyJson := some (.obj [("error", .obj [("message", .str "boom")])]),
    parseError := parseErrFx }

/-- A server error whose body is plain text, not valid JSON. -/
def resp500RawFx : HttpResponse :=
  { status := 500, body := "Service Unavailable", bodyJson := none,
    parseError := parseErrFx }

/-- A client error whose body is empty, hence not valid JSON. -/
def resp404EmptyFx : HttpResponse :=
  { status := 404, body := "", bodyJson := none, parseError := parseErrFx }

/-- A run-tool environment with successful auth and the given fetch
outcome. -/
def runEnv (f : FetchOutcome) : ScriptRun.Env :=
  { auth := .ok [("Authorization", "Bearer tok")], fetch := f,
    now := "2026-10-12T00:00:00.000Z" }

/-- A versions-tool environment with successful auth and the given fetch
outcome. -/
def listEnv (f : FetchOutcome) : VersionsList.Env :=
  { auth := .ok "tok", fetch := f,
    now := "2026-10-12T00:00:00.000Z", elapsed := 7 }

/-- The concrete arguments of the round-trip claim. -/
def argsC3 : ScriptRun.Args :=
  { scriptId := some "X", functionName := some "f",
    parameters := some [.num 1, .num 2] }

/-! Theorems. -/

/-- The normalized envelope always has the documented shape. -/
theorem errorEnvelope_shape (e : JsError) (d : JsValue) :
    isErrorEnvelopeShape (errorEnvelope e d) :=
  ⟨e.message, d, e.name, e.stack, rfl⟩

/-- Reading the message field out of a normalized envelope. -/
theorem errorEnvelope_getField_message (e : JsError) (d : JsValue) :
    (errorEnvelope e d).getField "message" = some (.str e.message) := rfl

/-- C1: for every input and every outcome of the HTTP call (auth failure,
network fault, non-2xx status, JSON parse error), each executeFunction
returns normally with a value: either the decoded 2xx JSON body, or the
normalized error object with the keys error (true), message, details and
rawError.  Totality of the Lean functions models that no exception escapes
the wrapper. -/
theorem c1_failures_become_error_envelope :
    ∀ (a : ScriptRun.Args) (env : ScriptRun.Env)
      (b : VersionsList.Args) (envL : VersionsList.Env),
      ((∃ r data, env.fetch = .response r ∧ respOk r = true ∧ r.bodyJson = some data ∧
          (ScriptRun.executeFunction a env).result = data) ∨
        isErrorEnvelopeShape (ScriptRun.executeFunction a env).result) ∧
      ((∃ r data, envL.fetch = .response r ∧ respOk r = true ∧ r.bodyJson = some data ∧
          (VersionsList.executeFunction b envL).result = data) ∨
        isErrorEnvelopeShape (VersionsList.executeFunction b envL).result) := by
  intro a env b envL
  constructor
  · obtain ⟨auth, fetch, now⟩ := env
    cases auth with
    | fail e => exact Or.inr (errorEnvelope_shape _ _)
    | ok hs =>
      cases fetch with
      | fault e => exact Or.inr (errorEnvelope_shape _ _)
      | response r =>
        cases hok : respOk r with
        | true =>
          cases hj : r.bodyJson with
          | some data =>
            exact Or.inl ⟨r, data, rfl, hok, hj,
              by simp [ScriptRun.executeFunction, hok, hj]⟩
          | none =>
            refine Or.inr ?_
            simpa [ScriptRun.executeFunction, hok, hj] using
              errorEnvelope_shape r.parseError (ScriptRun.errorDetails a _ r.parseError)
        | false =>
          cases hj : r.bodyJson with
          | some errorData =>
            refine Or.inr ?_
            simpa [ScriptRun.executeFunction, hok, hj] using
              errorEnvelope_shape (mkError (JsValue.stringify errorData))
                (ScriptRun.errorDetails a _ (mkError (JsValue.stringify errorData)))
          | none =>
            refine Or.inr ?_
            simpa [ScriptRun.executeFunction, hok, hj] using
              errorEnvelope_shape r.parseError (ScriptRun.errorDetails a _ r.parseError)
  · obtain ⟨auth, fetch, now, elapsed⟩ := envL
    cases auth with
    | fail e => exact Or.inr (errorEnvelope_shape _ _)
    | ok tok =>
      cases fetch with
      | fault e => exact Or.inr (errorEnvelope_shape _ _)
      | response r =>
        cases hok : respOk r with
        | true =>
          cases hj : r.bodyJson with
          | some data =>
            exact Or.inl ⟨r, data, rfl, hok, hj,
              by simp [VersionsList.executeFunction, hok, hj]⟩
          | none =>
            refine Or.inr ?_
            simpa [VersionsList.executeFunction, hok, hj] using
              errorEnvelope_shape r.parseError (VersionsList.errorDetails b _ r.parseError)
        | false =>
          refine Or.inr ?_
          cases hj : r.bodyJson with
          | some j =>
            simpa [VersionsList.executeFunction, hok, hj] using
              errorEnvelope_shape _ (VersionsList.errorDetails b _ _)
          | none =>
            simpa [VersionsList.executeFunction, hok, hj] using
              errorEnvelope_shape _ (VersionsList.errorDetails b _ _)

/-- C2: the claim fails on the code.  Invoked with the required fields
missing (empty argument object), neither wrapper validates anything: the
HTTP request is still issued, and its path carries the interpolated literal
text undefined in the scriptId position.  This theorem evaluates the code
at the failing input. -/
theorem c2_missing_required_fields_still_issue_request :
    ((ScriptRun.executeFunction {} (runEnv (.response resp200Fx))).request.map
        HttpRequest.path = some "/v1/scripts/undefined:run") ∧
    ((ScriptRun.executeFunction {} (runEnv (.response resp200Fx))).request.map
        (fun r => r.body) = some (some (.obj
          [("parameters", .arr []), ("devMode", .bool true)]))) ∧
    ((VersionsList.executeFunction {} (listEnv (.response resp200Fx))).request.map
        HttpRequest.path = some "/v1/projects/undefined/versions") :=
  ⟨rfl, rfl, rfl⟩

/-- C3: for the run tool invoked with scriptId X, functionName f,
parameters the list one-two and everything else omitted, the constructed
request is a POST whose path is /v1/scripts/X:run and whose JSON body is
exactly the object with function f, parameters one-two and devMode true;
and that is the request handed to fetch. -/
theorem c3_roundtrip_request :
    ScriptRun.buildRequest argsC3 =
      { method := "POST",
        path := "/v1/scripts/X:run",
        query := [("alt", "json"), ("prettyPrint", "true")],
        headers := [],
        body := some (.obj [("function", .str "f"),
                            ("parameters", .arr [.num 1, .num 2]),
                            ("devMode", .bool true)]) } ∧
    ((ScriptRun.executeFunction argsC3 (runEnv (.response resp200Fx))).request.map
        (fun r => (r.method, r.path, r.body)) =
      some ("POST", "/v1/scripts/X:run",
        some (.obj [("function", .str "f"),
                    ("parameters", .arr [.num 1, .num 2]),
                    ("devMode", .bool true)]))) :=
  ⟨rfl, rfl⟩

/-- C4 counterexample: a non-2xx response whose body is not valid JSON.
The run wrapper calls response.json before throwing, so the json parse
fault preempts the remote error: the envelope message is the engine
SyntaxError text, which carries neither the remote body text nor the
status. -/
theorem c4_counterexample_nonjson_error_body :
    resp500RawFx.status = 500 ∧
    resp500RawFx.bodyJson = none ∧
    resp500RawFx.body = "Service Unavailable" ∧
    ((ScriptRun.executeFunction { scriptId := some "S" }
        (runEnv (.response resp500RawFx))).result.getField "message" =
      some (.str "Unexpected token S in JSON at position 0")) ∧
    ("Unexpected token S in JSON at position 0" : String) ≠ "Service Unavailable" :=
  ⟨rfl, rfl, rfl, rfl, by decide⟩

/-- C4 amended: on a non-2xx response whose body is valid JSON, the run
wrapper surfaces the serialized remote error body as the envelope message,
and when the body is not valid JSON it surfaces the JSON parse fault
message instead; the versions wrapper surfaces the HTTP status together
with the remote error message; a transport fault is surfaced with the
local fault message by both wrappers. -/
theorem c4_amended_error_surfacing :
    (∀ (a : ScriptRun.Args) (hs : List (String × String)) (env : ScriptRun.Env)
        (r : HttpResponse) (j : JsValue),
        env.auth = .ok hs → env.fetch = .response r → respOk r = false →
        r.bodyJson = some j →
        (ScriptRun.executeFunction a env).result.getField "message" =
          some (.str (JsValue.stringify j))) ∧
    (∀ (a : ScriptRun.Args) (hs : List (String × String)) (env : ScriptRun.Env)
        (r : HttpResponse),
        env.auth = .ok hs → env.fetch = .response r → respOk r = false →
        r.bodyJson = none →
        (ScriptRun.executeFunction a env).result.getField "message" =
          some (.str r.parseError.message)) ∧
    (∀ (b : VersionsList.Args) (tok : String) (envL : VersionsList.Env)
        (r : HttpResponse) (j e : JsValue) (m : String),
        envL.auth = .ok tok → envL.fetch = .response r → respOk r = false →
        r.bodyJson = some j → j.getField "error" = some e →
        e.getField "message" = some (.str m) → m.isEmpty = false →
        (VersionsList.executeFunction b envL).result.getField "message" =
          some (.str ("API Error (" ++ toString r.status ++ "): " ++ m))) ∧
    (∀ (a : ScriptRun.Args) (hs : List (String × String)) (env : ScriptRun.Env)
        (e : JsError),
        env.auth = .ok hs → env.fetch = .fault e →
        (ScriptRun.executeFunction a env).result.getField "message" =
          some (.str e.message)) ∧
    (∀ (b : VersionsList.Args) (tok : String) (envL : VersionsList.Env)
        (e : JsError),
        envL.auth = .ok tok → envL.fetch = .fault e →
        (VersionsList.executeFunction b envL).result.getField "message" =
          some (.str e.message)) := by
  refine ⟨?_, ?_, ?_, ?_, ?_⟩
  · intro a hs env r j hA hF hok hj
    obtain ⟨auth, fetch, now⟩ := env
    cases hA; cases hF
    simp [ScriptRun.executeFunction, hok, hj, ScriptRun.failValue,
      errorEnvelope_getField_message, mkError]
  · intro a hs env r hA hF hok hj
    obtain ⟨auth, fetch, now⟩ := env
    cases hA; cases hF
    simp [ScriptRun.executeFunction, hok, hj, ScriptRun.failValue,
      errorEnvelope_getField_message]
  · intro b tok envL r j e m hA hF hok hj hje hjm hm
    obtain ⟨auth, fetch, now, elapsed⟩ := envL
    cases hA; cases hF
    simp [VersionsList.executeFunction, hok, hj, VersionsList.failValue,
      errorEnvelope_getField_message, mkError, VersionsList.apiErrorText,
      hje, hjm, VersionsList.firstTruthy, Option.bind, JsValue.truthy, hm,
      jsToString]
  · intro a hs env e hA hF
    obtain ⟨auth, fetch, now⟩ := env
    cases hA; cases hF
    simp [ScriptRun.executeFunction, ScriptRun.failValue,
      errorEnvelope_getField_message]
  · intro b tok envL e hA hF
    obtain ⟨auth, fetch, now, elapsed⟩ := envL
    cases hA; cases hF
    simp [VersionsList.executeFunction, VersionsList.failValue,
      errorEnvelope_getField_message]

/-- C4 amended witness: each surfacing case checked at a concrete input. -/
theorem c4_amended_error_surfacing_witness :
    ((ScriptRun.executeFunction {} (runEnv (.response resp500JsonFx))).result.getField
        "message" = some (.str (JsValue.stringify
          (.obj [("error", .obj [("message", .str "boom")])])))) ∧
    ((ScriptRun.executeFunction {} (runEnv (.response resp500RawFx))).result.getField
        "message" = some (.str resp500RawFx.parseError.message)) ∧
    ((VersionsList.executeFunction {} (listEnv (.response resp500JsonFx))).result.getField
        "message" = some (.str ("API Error (" ++ toString resp500JsonFx.status ++ "): " ++ "boom"))) ∧
    ((ScriptRun.executeFunction {} (runEnv (.fault faultFx))).result.getField
        "message" = some (.str faultFx.message)) ∧
    ((VersionsList.executeFunction {} (listEnv (.fault faultFx))).result.getField
        "message" = some (.str faultFx.message)) :=
  ⟨c4_amended_error_surfacing.1 {} _ _ resp500JsonFx _ rfl rfl rfl rfl,
   c4_amended_error_surfacing.2.1 {} _ _ resp500RawFx rfl rfl rfl rfl,
   c4_amended_error_surfacing.2.2.1 {} "tok" _ resp500JsonFx _ _ "boom"
     rfl rfl rfl rfl rfl rfl rfl,
   c4_amended_error_surfacing.2.2.2.1 {} _ _ faultFx rfl rfl,
   c4_amended_error_surfacing.2.2.2.2 {} "tok" _ faultFx rfl rfl⟩

/-- C5: whenever auth succeeds and the remote responds with HTTP 200 and a
JSON body, each executeFunction returns exactly that decoded body. -/
theorem c5_success_passthrough :
    (∀ (a : ScriptRun.Args) (hs : List (String × String)) (env : ScriptRun.Env)
        (r : HttpResponse) (data : JsValue),
        env.auth = .ok hs → env.fetch = .response r → r.status = 200 →
        r.bodyJson = some data →
        (ScriptRun.executeFunction a env).result = data) ∧
    (∀ (b : VersionsList.Args) (tok : String) (envL : VersionsList.Env)
        (r : HttpResponse) (data : JsValue),
        envL.auth = .ok tok → envL.fetch = .response r → r.status = 200 →
        r.bodyJson = some data →
        (VersionsList.executeFunction b envL).result = data) := by
  constructor
  · intro a hs env r data hA hF hst hj
    obtain ⟨auth, fetch, now⟩ := env
    cases hA; cases hF
    obtain ⟨st, body, bj, pe⟩ := r
    simp only at hst hj
    cases hst; cases hj
    simp [ScriptRun.executeFunction, respOk]
  · intro b tok envL r data hA hF hst hj
    obtain ⟨auth, fetch, now, elapsed⟩ := envL
    cases hA; cases hF
    obtain ⟨st, body, bj, pe⟩ := r
    simp only at hst hj
    cases hst; cases hj
    simp [VersionsList.executeFunction, respOk]

/-- C5 witness: the pass-through observed on a concrete 200 response. -/
theorem c5_success_passthrough_witness :
    ((ScriptRun.executeFunction {} (runEnv (.response resp200Fx))).result =
      .obj [("done", .bool true)]) ∧
    ((VersionsList.executeFunction {} (listEnv (.response resp200Fx))).result =
      .obj [("done", .bool true)]) :=
  ⟨c5_success_passthrough.1 {} _ _ resp200Fx _ rfl rfl rfl rfl,
   c5_success_passthrough.2 {} "tok" _ resp200Fx _ rfl rfl rfl rfl⟩

/-- C6: with the optional fields omitted, the defaults apply: the run tool
sends devMode true in the request body and prettyPrint true in the query
string, the versions tool sends pageSize 100 and prettyPrint true in the
query string. -/
theorem c6_defaults_apply :
    ∀ (a : ScriptRun.Args) (b : VersionsList.Args),
      a.devMode = none → a.prettyPrint = none →
      b.pageSize = none → b.prettyPrint = none →
      (ScriptRun.requestBody a).getField "devMode" = some (.bool true) ∧
      ("prettyPrint", "true") ∈ ScriptRun.queryParams a ∧
      ("pageSize", "100") ∈ VersionsList.queryParams b ∧
      ("prettyPrint", "true") ∈ VersionsList.queryParams b := by
  intro a b hdm hpp hps hppL
  refine ⟨?_, ?_, ?_, ?_⟩
  · cases hf : a.functionName <;>
      simp [ScriptRun.requestBody, hdm, hf, JsValue.getField, lookupField]
  · simp [ScriptRun.queryParams, hpp]
    exact Or.inr (Or.inr (Or.inl rfl))
  · simp [VersionsList.queryParams, hps]
    exact Or.inl rfl
  · simp [VersionsList.queryParams, hppL]

/-- C6 witness: the defaults observed on fully-empty argument objects. -/
theorem c6_defaults_apply_witness :
    (ScriptRun.requestBody {}).getField "devMode" = some (.bool true) ∧
    ("prettyPrint", "true") ∈ ScriptRun.queryParams {} ∧
    ("pageSize", "100") ∈ VersionsList.queryParams {} ∧
    ("prettyPrint", "true") ∈ VersionsList.queryParams {} :=
  c6_defaults_apply {} {} rfl rfl rfl rfl

/-- C7: the run tool query string only ever carries the non-auth display
options fields, alt, prettyPrint and quotaUser, each present exactly when
supplied as truthy or defaulted (prettyPrint always, after its default);
the auth arguments key, access_token and oauth_token never appear. -/
theorem c7_run_query_only_display_options :
    ∀ a : ScriptRun.Args,
      ((ScriptRun.queryParams a).all (fun p =>
        p.1 == "fields" || p.1 == "alt" || p.1 == "prettyPrint" ||
          p.1 == "quotaUser")) = true ∧
      ((ScriptRun.queryParams a).all (fun p =>
        p.1 != "key" && p.1 != "access_token" && p.1 != "oauth_token")) = true ∧
      ((ScriptRun.queryParams a).any (fun p => p.1 == "fields")) = truthyStr a.fields ∧
      ((ScriptRun.queryParams a).any (fun p => p.1 == "alt")) =
        !(a.alt.getD "json").isEmpty ∧
      ((ScriptRun.queryParams a).any (fun p => p.1 == "prettyPrint")) = true ∧
      ((ScriptRun.queryParams a).any (fun p => p.1 == "quotaUser")) =
        truthyStr a.quotaUser := by
  intro a
  obtain ⟨sid, fn, ps, dm, fl, alt, k, atk, otk, qu, pp⟩ := a
  refine ⟨?_, ?_, ?_, ?_, ?_, ?_⟩ <;>
  · rcases fl with _ | f <;> rcases alt with _ | al <;> rcases qu with _ | q <;>
      simp only [ScriptRun.queryParams, appendIfTruthy, truthyStr, Option.getD] <;>
      (try cases hf : f.isEmpty) <;> (try cases hal : al.isEmpty) <;>
      (try cases hq : q.isEmpty) <;> (try simp [*]) <;> rfl

/-- C8: every versions-list request is a GET to /v1/projects/ scriptId
/versions whose query string carries pageSize always, pageToken when a
non-empty one is supplied, and the formatting passthrough fields: fields
when non-empty, alt always as json, prettyPrint when truthy (the
default). -/
theorem c8_versions_request_shape :
    ∀ (b : VersionsList.Args) (tok sid : String),
      b.scriptId = some sid →
      (VersionsList.buildRequest b tok).method = "GET" ∧
      (VersionsList.buildRequest b tok).path = "/v1/projects/" ++ sid ++ "/versions" ∧
      ("pageSize", toString (b.pageSize.getD 100)) ∈ (VersionsList.buildRequest b tok).query ∧
      (∀ t, b.pageToken = some t → t.isEmpty = false →
        ("pageToken", t) ∈ (VersionsList.buildRequest b tok).query) ∧
      (∀ f, b.fields = some f → f.isEmpty = false →
        ("fields", f) ∈ (VersionsList.buildRequest b tok).query) ∧
      ("alt", "json") ∈ (VersionsList.buildRequest b tok).query ∧
      (b.prettyPrint.getD true = true →
        ("prettyPrint", "true") ∈ (VersionsList.buildRequest b tok).query) := by
  intro b tok sid hsid
  refine ⟨rfl, ?_, ?_, ?_, ?_, ?_, ?_⟩
  · simp [VersionsList.buildRequest, interp, hsid]
  · simp [VersionsList.buildRequest, VersionsList.queryParams]
  · intro t ht hne
    simp [VersionsList.buildRequest, VersionsList.queryParams, appendIfTruthy, ht, hne]
  · intro f hf hne
    simp [VersionsList.buildRequest, VersionsList.queryParams, appendIfTruthy, hf, hne]
  · simp [VersionsList.buildRequest, VersionsList.queryParams]
  · intro hpp
    simp [VersionsList.buildRequest, VersionsList.queryParams, hpp]

/-- C8 witness: the request shape observed at concrete arguments. -/
theorem c8_versions_request_shape_witness :
    (VersionsList.buildRequest
        { scriptId := some "S", pageToken := some "NEXT", fields := some "versions" }
        "tk").method = "GET" ∧
    (VersionsList.buildRequest
        { scriptId := some "S", pageToken := some "NEXT", fields := some "versions" }
        "tk").path = "/v1/projects/" ++ "S" ++ "/versions" ∧
    ("pageSize", toString ((100 : Int))) ∈ (VersionsList.buildRequest
        { scriptId := some "S", pageToken := some "NEXT", fields := some "versions" }
        "tk").query ∧
    ("pageToken", "NEXT") ∈ (VersionsList.buildRequest
        { scriptId := some "S", pageToken := some "NEXT", fields := some "versions" }
        "tk").query ∧
    ("fields", "versions") ∈ (VersionsList.buildRequest
        { scriptId := some "S", pageToken := some "NEXT", fields := some "versions" }
        "tk").query ∧
    ("alt", "json") ∈ (VersionsList.buildRequest
        { scriptId := some "S", pageToken := some "NEXT", fields := some "versions" }
        "tk").query ∧
    ("prettyPrint", "true") ∈ (VersionsList.buildRequest
        { scriptId := some "S", pageToken := some "NEXT", fields := some "versions" }
        "tk").query := by
  have h := c8_versions_request_shape
    { scriptId := some "S", pageToken := some "NEXT", fields := some "versions" }
    "tk" "S" rfl
  exact ⟨h.1, h.2.1, h.2.2.1, h.2.2.2.1 "NEXT" rfl rfl,
    h.2.2.2.2.1 "versions" rfl rfl, h.2.2.2.2.2.1, h.2.2.2.2.2.2 rfl⟩

/-- C9: two run-tool invocations that differ only in the key, access_token
and oauth_token arguments produce the same call trace: the same issued
request (method, URL, query, headers, body) and the same returned value.
The wrapper destructures these three arguments but never uses them; their
query appends are commented out in the source. -/
theorem c9_auth_args_never_influence_request_or_result :
    ∀ (a : ScriptRun.Args) (k1 t1 o1 k2 t2 o2 : Option String) (env : ScriptRun.Env),
      ScriptRun.executeFunction
        { a with key := k1, access_token := t1, oauth_token := o1 } env =
      ScriptRun.executeFunction
        { a with key := k2, access_token := t2, oauth_token := o2 } env := by
  intro a k1 t1 o1 k2 t2 o2 env
  rfl

/-- C10 counterexample: a 404 whose body is empty text, hence not valid
JSON.  The parse fallback stores the empty string as the message, the
falsy-chain skips it, and the envelope message ends in Unknown error
rather than in the raw body text. -/
theorem c10_counterexample_empty_error_body :
    resp404EmptyFx.status = 404 ∧
    resp404EmptyFx.body = "" ∧
    resp404EmptyFx.bodyJson = none ∧
    ((VersionsList.executeFunction {} (listEnv (.response resp404EmptyFx))).result.getField
        "message" = some (.str "API Error (404): Unknown error")) ∧
    ("API Error (404): Unknown error" : String) ≠ "API Error (404): " ++ resp404EmptyFx.body :=
  ⟨rfl, rfl, rfl, rfl, by decide⟩

/-- C10 amended: on a non-2xx response whose body is not valid JSON, the
versions wrapper still returns the normalized envelope, and its message is
API Error, the status, and the raw body text when that text is non-empty,
the placeholder Unknown error when it is empty. -/
theorem c10_amended_nonjson_error_text :
    ∀ (b : VersionsList.Args) (tok : String) (envL : VersionsList.Env) (r : HttpResponse),
      envL.auth = .ok tok → envL.fetch = .response r → respOk r = false →
      r.bodyJson = none →
      isErrorEnvelopeShape (VersionsList.executeFunction b envL).result ∧
      (VersionsList.executeFunction b envL).result.getField "message" =
        some (.str ("API Error (" ++ toString r.status ++ "): " ++
          (if r.body.isEmpty then "Unknown error" else r.body))) := by
  intro b tok envL r hA hF hok hj
  obtain ⟨auth, fetch, now, elapsed⟩ := envL
  cases hA; cases hF
  constructor
  · simpa [VersionsList.executeFunction, hok, hj] using
      errorEnvelope_shape _ (VersionsList.errorDetails b _ _)
  · cases hb : r.body.isEmpty <;>
      simp [VersionsList.executeFunction, hok, hj, VersionsList.failValue,
        errorEnvelope_getField_message, mkError, VersionsList.apiErrorText,
        JsValue.getField, lookupField, VersionsList.firstTruthy,
        JsValue.truthy, hb, jsToString] <;> rfl

/-- C10 amended witness: the fallback observed on a concrete plain-text
500 body. -/
theorem c10_amended_nonjson_error_text_witness :
    respOk resp500RawFx = false ∧
    isErrorEnvelopeShape
      (VersionsList.executeFunction {} (listEnv (.response resp500RawFx))).result ∧
    ((VersionsList.executeFunction {} (listEnv (.response resp500RawFx))).result.getField
        "message" = some (.str ("API Error (" ++ toString resp500RawFx.status ++ "): " ++
          (if resp500RawFx.body.isEmpty then "Unknown error" else resp500RawFx.body)))) := by
  have h := c10_amended_nonjson_error_text {} "tok" (listEnv (.response resp500RawFx))
    resp500RawFx rfl rfl rfl rfl
  exact ⟨rfl, h.1, h.2⟩

end GAS
